import Mathlib

/-!
Shallow embedding of `src/app.py`, a single-endpoint Flask service that
removes image backgrounds.

The repository's own control flow and arithmetic are translated directly
from the source.  External libraries (the standard base64 decoder, PIL
image parsing / encoding / resampling / mode conversion, the HTTP client
`requests`, and the rembg model invocation) are opaque collaborators and
are modelled as components of an `Env` record; the one fact about them
the source relies on is baked in: errors raised by `requests.get` and by
`Response.raise_for_status` are `requests.RequestException`s, while
errors raised by `base64.b64decode`, `Image.open`, `Image.save` and
`rembg.remove` are not.  Python float division in `resize_if_needed` is
modelled by exact rational arithmetic.  Request bodies are modelled as
parsed JSON objects (a key/value list with distinct keys, as produced by
`request.get_json()` on an object body).
-/

/-- JSON values as produced by Flask request parsing and consumed by
`jsonify`.  Numbers are modelled as exact rationals. -/
inductive JVal where
  | null : JVal
  | bool (b : Bool) : JVal
  | num (q : ℚ) : JVal
  | str (s : String) : JVal
  | arr (xs : List JVal) : JVal
  | obj (fs : List (String × JVal)) : JVal

/-- An in-memory PIL raster: width, height, a mode string ("RGB",
"RGBA", "L", "P", "CMYK", ...) and its pixel payload, kept abstract as a
byte list. -/
structure PILImage where
  width : Nat
  height : Nat
  mode : String
  data : List Nat
  deriving DecidableEq, Repr

/-- `image.size` in PIL is the pair (width, height). -/
def PILImage.size (img : PILImage) : Nat × Nat := (img.width, img.height)

/-- A `requests` HTTP response: status code and raw body bytes. -/
structure HttpResp where
  status : Nat
  content : List Nat
  deriving DecidableEq, Repr

/-- A Python exception as it matters to the handler's `except` clauses:
either a `requests.RequestException` (caught first, at line 167) or any
other exception (caught by the catch-all at line 169).  The payload is
`str(e)`. -/
inductive PyErr where
  | reqExc (msg : String) : PyErr
  | other (msg : String) : PyErr
  deriving DecidableEq, Repr

/-- An HTTP response produced by the endpoint: either a JSON body (via
`jsonify`) with a status code, or raw bytes with a mimetype (via
`send_file`, status 200). -/
inductive HttpResponse where
  | json (status : Nat) (body : List (String × JVal)) : HttpResponse
  | binary (status : Nat) (mimetype : String) (body : List Nat) : HttpResponse

/-- Status code of a response. -/
def HttpResponse.status : HttpResponse → Nat
  | HttpResponse.json s _ => s
  | HttpResponse.binary s _ _ => s

/-- JSON body of a response (empty for a binary response). -/
def HttpResponse.jsonBody : HttpResponse → List (String × JVal)
  | HttpResponse.json _ b => b
  | HttpResponse.binary _ _ _ => []

/-- The externally owned operations the handler calls, plus the two
startup configuration values it reads.  Failure results model raised
exceptions; by library fact, `httpGet` failures are
`requests.RequestException`s and the others are not, which is encoded at
the call sites. -/
structure Env where
  /-- `MAX_IMAGE_SIZE` read from the environment at startup (default 2048). -/
  MAX_IMAGE_SIZE : Nat
  /-- `base64.b64decode` on the encoded text. -/
  b64decode : String → Except String (List Nat)
  /-- `PIL.Image.open` on a byte buffer. -/
  imageOpen : List Nat → Except String PILImage
  /-- `requests.get(url, timeout=30)`; the argument is whatever JSON value
  the caller passed.  Errors are `RequestException`s. -/
  httpGet : JVal → Except String HttpResp
  /-- `str` of the `HTTPError` that `raise_for_status` raises for a
  status code in [400, 600). -/
  httpErrStr : HttpResp → String
  /-- Pixel payload produced by `image.convert('RGBA')`. -/
  convertData : PILImage → List Nat
  /-- Pixel payload produced by `image.resize((w, h), Image.LANCZOS)`. -/
  resample : PILImage → Nat → Nat → List Nat
  /-- `rembg.remove(image, session=session, alpha_matting=am,
  alpha_matting_foreground_threshold=fg, alpha_matting_background_threshold=bg)`
  against the process-wide model session. -/
  removeBg : PILImage → Bool → Nat → Nat → Except String PILImage
  /-- `image.save(buffer, format=fmt)`: the bytes written. -/
  imgEncode : PILImage → String → Except String (List Nat)
  /-- `time.time() - start_time` for this request, in seconds. -/
  elapsedSecs : ℚ

/-- Python `int()` on a real value: truncation toward zero. -/
def pyInt (q : ℚ) : ℤ := if 0 ≤ q then ⌊q⌋ else ⌈q⌉

/-- Round-half-to-even of a rational, as Python's built-in `round`. -/
def roundHalfEven (q : ℚ) : ℤ :=
  if q - ⌊q⌋ < 1 / 2 then ⌊q⌋
  else if 1 / 2 < q - ⌊q⌋ then ⌊q⌋ + 1
  else if ⌊q⌋ % 2 = 0 then ⌊q⌋ else ⌊q⌋ + 1

/-- Python `round(x, 2)` (exact-arithmetic model). -/
def pyRound2 (q : ℚ) : ℚ := (roundHalfEven (q * 100) : ℚ) / 100

/-- The standard base64 alphabet. -/
def b64Chars : List Char :=
  "ABCDEFGHIJKLMNOPQRSTUVWXYZabcdefghijklmnopqrstuvwxyz0123456789+/".toList

/-- Character for a 6-bit group. -/
def b64Char (n : Nat) : Char := b64Chars.getD n 'A'

/-- Standard base64 encoding with '=' padding, as
`base64.b64encode(...).decode('utf-8')` on a byte string. -/
def base64Encode : List Nat → String
  | [] => ""
  | [a] =>
    String.mk [b64Char (a / 4), b64Char (a % 4 * 16), '=', '=']
  | [a, b] =>
    String.mk [b64Char (a / 4), b64Char (a % 4 * 16 + b / 16), b64Char (b % 16 * 4), '=']
  | a :: b :: c :: rest =>
    String.mk [b64Char (a / 4), b64Char (a % 4 * 16 + b / 16),
      b64Char (b % 16 * 4 + c / 64), b64Char (c % 64)] ++ base64Encode rest

/-- First occurrence lookup in a JSON object, i.e. Python `data[k]` /
`'k' in data` on a dict (keys are unique in a parsed object). -/
def lookupKey (data : List (String × JVal)) (k : String) : Option JVal :=
  match data.find? (fun p => p.1 == k) with
  | some p => some p.2
  | none => none

/-- Python `data.get(k, default)`. -/
def lookupDefault (data : List (String × JVal)) (k : String) (d : JVal) : JVal :=
  (lookupKey data k).getD d

/-- Python truthiness of a JSON value. -/
def pyTruthy : JVal → Bool
  | JVal.null => false
  | JVal.bool b => b
  | JVal.num q => if q = 0 then false else true
  | JVal.str s => if s = "" then false else true
  | JVal.arr xs => !xs.isEmpty
  | JVal.obj fs => !fs.isEmpty

/-- Python `v == "lit"` for a JSON value `v`: true only when `v` is that
string (comparison of a string with any other type is `False`). -/
def pyEqStr : JVal → String → Bool
  | JVal.str s, t => s == t
  | _, _ => false

/-- Python `str.lower()` (ASCII lowering suffices for the literal "PNG"
it is applied to). -/
def pyLower (s : String) : String := String.mk (s.toList.map Char.toLower)

/-- Split a character list at the first occurrence of `d`, dropping it. -/
def splitOnceChar : List Char → Char → Option (List Char × List Char)
  | [], _ => none
  | c :: cs, d =>
    if c = d then some ([], cs)
    else (splitOnceChar cs d).map (fun p => (c :: p.1, p.2))

/-- Lines 42-46: `header, encoded = s.split(',', 1)` when the string
starts with "data:", else the string itself.  A data URL with no comma
makes the 2-element unpacking raise a `ValueError`. -/
def stripDataUrl (s : String) : Except PyErr String :=
  if s.startsWith "data:" then
    match splitOnceChar s.toList ',' with
    | some p => Except.ok (String.mk p.2)
    | none => Except.error (PyErr.other "not enough values to unpack (expected 2, got 1)")
  else Except.ok s

/-- `decode_base64_image` (lines 40-49).  The argument is the raw JSON
value found under 'imageData'; `.startswith` on a non-string raises an
`AttributeError` (not a `RequestException`). -/
def decode_base64_image (env : Env) (v : JVal) : Except PyErr PILImage :=
  match v with
  | JVal.str s =>
    Except.bind (stripDataUrl s) (fun encoded =>
      match env.b64decode encoded with
      | Except.error m => Except.error (PyErr.other m)
      | Except.ok image_data =>
        match env.imageOpen image_data with
        | Except.error m => Except.error (PyErr.other m)
        | Except.ok img => Except.ok img)
  | _ => Except.error (PyErr.other "object has no attribute startswith")

/-- `fetch_image_from_url` (lines 52-56): `requests.get(url, timeout=30)`,
then `raise_for_status()` (raises `HTTPError`, a `RequestException`, for
status codes in [400, 600)), then `Image.open` on the body (whose errors
are not `RequestException`s). -/
def fetch_image_from_url (env : Env) (v : JVal) : Except PyErr PILImage :=
  match env.httpGet v with
  | Except.error m => Except.error (PyErr.reqExc m)
  | Except.ok resp =>
    if 400 ≤ resp.status ∧ resp.status < 600 then
      Except.error (PyErr.reqExc (env.httpErrStr resp))
    else
      match env.imageOpen resp.content with
      | Except.error m => Except.error (PyErr.other m)
      | Except.ok img => Except.ok img

/-- `image.resize((w, h), Image.LANCZOS)`: new dimensions, same mode,
resampled payload. -/
def pilResize (env : Env) (img : PILImage) (w h : Nat) : PILImage :=
  { width := w, height := h, mode := img.mode, data := env.resample img w h }

/-- `resize_if_needed` (lines 59-70).  `int((height / width) * max_size)`
is exact-rational division followed by Python `int()` truncation. -/
def resize_if_needed (env : Env) (image : PILImage) (max_size : Nat) : PILImage :=
  if image.width > max_size ∨ image.height > max_size then
    if image.width > image.height then
      pilResize env image max_size
        (pyInt ((image.height : ℚ) / (image.width : ℚ) * (max_size : ℚ))).toNat
    else
      pilResize env image
        (pyInt ((image.width : ℚ) / (image.height : ℚ) * (max_size : ℚ))).toNat max_size
  else image

/-- `image_to_base64` (lines 73-79): PNG-serialize, base64-encode, wrap
as a data URL. -/
def image_to_base64 (env : Env) (image : PILImage) (format : String) : Except PyErr String :=
  match env.imgEncode image format with
  | Except.error m => Except.error (PyErr.other m)
  | Except.ok bts =>
    Except.ok ("data:image/" ++ pyLower format ++ ";base64," ++ base64Encode bts)

/-- `image.convert('RGBA')`: same size, mode "RGBA", converted payload. -/
def pilConvertRGBA (env : Env) (img : PILImage) : PILImage :=
  { width := img.width, height := img.height, mode := "RGBA", data := env.convertData img }

/-- Lines 123-125: ensure the image is in RGB or RGBA mode, converting
to RGBA otherwise. -/
def modeNormalize (env : Env) (image : PILImage) : PILImage :=
  if image.mode = "RGB" ∨ image.mode = "RGBA" then image else pilConvertRGBA env image

/-- Lines 123-165 of `remove_background`: everything after an image has
been obtained, still inside the `try`. -/
def handle_image (env : Env) (data : List (String × JVal)) (image0 : PILImage) :
    Except PyErr HttpResponse :=
  let image1 := modeNormalize env image0
  let original_size := image1.size
  let image2 := resize_if_needed env image1 env.MAX_IMAGE_SIZE
  let alpha_matting := lookupDefault data "alpha_matting" (JVal.bool true)
  let return_format := lookupDefault data "return_format" (JVal.str "base64")
  match env.removeBg image2 (pyTruthy alpha_matting) 240 10 with
  | Except.error m => Except.error (PyErr.other m)
  | Except.ok output_image =>
    if pyEqStr return_format "binary" then
      match env.imgEncode output_image "PNG" with
      | Except.error m => Except.error (PyErr.other m)
      | Except.ok bts => Except.ok (HttpResponse.binary 200 "image/png" bts)
    else
      match image_to_base64 env output_image "PNG" with
      | Except.error e => Except.error e
      | Except.ok data_url =>
        Except.ok (HttpResponse.json 200 [
          ("success", JVal.bool true),
          ("dataUrl", JVal.str data_url),
          ("originalSize", JVal.arr [JVal.num (original_size.1 : ℚ), JVal.num (original_size.2 : ℚ)]),
          ("processedSize", JVal.arr [JVal.num (image2.size.1 : ℚ), JVal.num (image2.size.2 : ℚ)]),
          ("processingTime", JVal.num (pyRound2 env.elapsedSecs))])

/-- The two `except` clauses at lines 167-170. -/
def runExc : Except PyErr HttpResponse → HttpResponse
  | Except.ok r => r
  | Except.error (PyErr.reqExc m) =>
    HttpResponse.json 400 [("error", JVal.str ("Failed to fetch image: " ++ m))]
  | Except.error (PyErr.other m) =>
    HttpResponse.json 500 [("error", JVal.str m)]

/-- The `/remove-bg` handler (lines 92-170) on a parsed JSON object
body.  Besides the response it returns the list of arguments passed to
`requests.get` during the request, so that outbound network activity is
observable.  `if not data` is the Python falsiness test, true for the
empty object. -/
def remove_background (env : Env) (data : List (String × JVal)) :
    HttpResponse × List JVal :=
  if data.isEmpty then
    (HttpResponse.json 400 [("error", JVal.str "No JSON data provided")], [])
  else
    match lookupKey data "imageData" with
    | some v =>
      (runExc (Except.bind (decode_base64_image env v) (handle_image env data)), [])
    | none =>
      match lookupKey data "imageUrl" with
      | some v =>
        (runExc (Except.bind (fetch_image_from_url env v) (handle_image env data)), [v])
      | none =>
        (HttpResponse.json 400 [("error", JVal.str "No image provided. Use imageData or imageUrl")], [])

/-! ### Concrete environments for evaluation -/

/-- A default concrete environment: every external operation succeeds
trivially, the network is down, the model is the identity. -/
def envDefault : Env where
  MAX_IMAGE_SIZE := 2048
  b64decode := fun _ => Except.ok []
  imageOpen := fun _ => Except.ok { width := 1, height := 1, mode := "RGB", data := [] }
  httpGet := fun _ => Except.error "connection error"
  httpErrStr := fun _ => "http error"
  convertData := fun _ => []
  resample := fun _ _ _ => []
  removeBg := fun i _ _ _ => Except.ok i
  imgEncode := fun _ _ => Except.ok []
  elapsedSecs := 0

/-! ### Helper lemmas about the size normalizer -/

theorem pyInt_of_nonneg (q : ℚ) (h : 0 ≤ q) : pyInt q = ⌊q⌋ := if_pos h

theorem resize_if_needed_mode (env : Env) (img : PILImage) (m : Nat) :
    (resize_if_needed env img m).mode = img.mode := by
  rw [resize_if_needed]
  split
  · split <;> rfl
  · rfl

theorem resize_if_needed_small (env : Env) (img : PILImage) (m : Nat)
    (hw : img.width ≤ m) (hh : img.height ≤ m) :
    resize_if_needed env img m = img := by
  rw [resize_if_needed, if_neg]
  push_neg
  omega

theorem resize_dims_of_big (env : Env) (img : PILImage) (m : Nat)
    (h : m < max img.width img.height) :
    max (resize_if_needed env img m).width (resize_if_needed env img m).height = m ∧
    ((min (resize_if_needed env img m).width (resize_if_needed env img m).height : ℕ) : ℤ)
      = pyInt (((min img.width img.height : ℕ) : ℚ) / ((max img.width img.height : ℕ) : ℚ) * (m : ℚ)) ∧
    |((min (resize_if_needed env img m).width (resize_if_needed env img m).height : ℕ) : ℚ)
        - ((min img.width img.height : ℕ) : ℚ) / ((max img.width img.height : ℕ) : ℚ) * (m : ℚ)| ≤ 1 := by
  rcases lt_or_le img.height img.width with hc | hc
  · -- width > height: lines 63-65
    have hwm : m < img.width := by
      have hx := max_eq_left hc.le
      omega
    set q : ℚ := (img.height : ℚ) / (img.width : ℚ) * (m : ℚ) with hqdef
    have hq0 : 0 ≤ q := by positivity
    have hfl0 : (0 : ℤ) ≤ ⌊q⌋ := Int.floor_nonneg.mpr hq0
    have hr : resize_if_needed env img m
        = pilResize env img m (pyInt q).toNat := by
      rw [resize_if_needed, if_pos (Or.inl hwm), if_pos hc]
    have htZ : (((pyInt q).toNat : ℕ) : ℤ) = ⌊q⌋ := by
      rw [pyInt_of_nonneg q hq0, Int.toNat_of_nonneg hfl0]
    have hql : q ≤ (m : ℚ) := by
      have hhw : (img.height : ℚ) / (img.width : ℚ) ≤ 1 := by
        apply div_le_one_of_le₀
        · exact_mod_cast hc.le
        · positivity
      calc q ≤ 1 * (m : ℚ) := by
              rw [hqdef]
              exact mul_le_mul_of_nonneg_right hhw (by positivity)
        _ = (m : ℚ) := one_mul _
    have htm : ⌊q⌋ ≤ (m : ℤ) := by
      have hx := Int.floor_le_floor hql
      rwa [Int.floor_natCast] at hx
    have htm' : (pyInt q).toNat ≤ m := by exact_mod_cast htZ ▸ htm
    have hminmax : min img.width img.height = img.height ∧ max img.width img.height = img.width :=
      ⟨min_eq_right hc.le, max_eq_left hc.le⟩
    refine ⟨?_, ?_, ?_⟩
    · rw [hr]; simp only [pilResize]
      exact max_eq_left htm'
    · rw [hr]; simp only [pilResize]
      rw [min_eq_right htm', hminmax.1, hminmax.2, htZ, pyInt_of_nonneg q hq0]
    · rw [hr]; simp only [pilResize]
      rw [min_eq_right htm', hminmax.1, hminmax.2]
      have hcast : (((pyInt q).toNat : ℕ) : ℚ) = ((⌊q⌋ : ℤ) : ℚ) := by exact_mod_cast htZ
      rw [hcast]
      have h1 : ((⌊q⌋ : ℤ) : ℚ) ≤ q := Int.floor_le q
      have h2 : q - 1 < ((⌊q⌋ : ℤ) : ℚ) := Int.sub_one_lt_floor q
      rw [abs_le]
      constructor <;> linarith
  · -- height ≥ width: lines 66-68
    have hhm : m < img.height := by
      have hx := max_eq_right hc
      omega
    set q : ℚ := (img.width : ℚ) / (img.height : ℚ) * (m : ℚ) with hqdef
    have hq0 : 0 ≤ q := by positivity
    have hfl0 : (0 : ℤ) ≤ ⌊q⌋ := Int.floor_nonneg.mpr hq0
    have hr : resize_if_needed env img m
        = pilResize env img (pyInt q).toNat m := by
      rw [resize_if_needed, if_pos (Or.inr hhm), if_neg (not_lt.mpr hc)]
    have htZ : (((pyInt q).toNat : ℕ) : ℤ) = ⌊q⌋ := by
      rw [pyInt_of_nonneg q hq0, Int.toNat_of_nonneg hfl0]
    have hql : q ≤ (m : ℚ) := by
      have hhw : (img.width : ℚ) / (img.height : ℚ) ≤ 1 := by
        apply div_le_one_of_le₀
        · exact_mod_cast hc
        · positivity
      calc q ≤ 1 * (m : ℚ) := by
              rw [hqdef]
              exact mul_le_mul_of_nonneg_right hhw (by positivity)
        _ = (m : ℚ) := one_mul _
    have htm : ⌊q⌋ ≤ (m : ℤ) := by
      have hx := Int.floor_le_floor hql
      rwa [Int.floor_natCast] at hx
    have htm' : (pyInt q).toNat ≤ m := by exact_mod_cast htZ ▸ htm
    have hminmax : min img.width img.height = img.width ∧ max img.width img.height = img.height :=
      ⟨min_eq_left hc, max_eq_right hc⟩
    refine ⟨?_, ?_, ?_⟩
    · rw [hr]; simp only [pilResize]
      exact max_eq_right htm'
    · rw [hr]; simp only [pilResize]
      rw [min_eq_left htm', hminmax.1, hminmax.2, htZ, pyInt_of_nonneg q hq0]
    · rw [hr]; simp only [pilResize]
      rw [min_eq_left htm', hminmax.1, hminmax.2]
      have hcast : (((pyInt q).toNat : ℕ) : ℚ) = ((⌊q⌋ : ℤ) : ℚ) := by exact_mod_cast htZ
      rw [hcast]
      have h1 : ((⌊q⌋ : ℤ) : ℚ) ≤ q := Int.floor_le q
      have h2 : q - 1 < ((⌊q⌋ : ℤ) : ℚ) := Int.sub_one_lt_floor q
      rw [abs_le]
      constructor <;> linarith

/-! ### Helper lemmas about mode normalization and the pipeline -/

theorem modeNormalize_width (env : Env) (img : PILImage) :
    (modeNormalize env img).width = img.width := by
  rw [modeNormalize]; split <;> rfl

theorem modeNormalize_height (env : Env) (img : PILImage) :
    (modeNormalize env img).height = img.height := by
  rw [modeNormalize]; split <;> rfl

/-- Under success of every stage after decoding, the handler returns the
base64 JSON envelope of lines 159-164.  Shared scaffolding for the
response-level claims. -/
theorem remove_background_base64_shape (env : Env) (data : List (String × JVal))
    (v : JVal) (img0 out : PILImage) (bts : List Nat)
    (hne : data.isEmpty = false)
    (hv : lookupKey data "imageData" = some v)
    (hdec : decode_base64_image env v = Except.ok img0)
    (hfmt : pyEqStr (lookupDefault data "return_format" (JVal.str "base64")) "binary" = false)
    (hrm : env.removeBg (resize_if_needed env (modeNormalize env img0) env.MAX_IMAGE_SIZE)
        (pyTruthy (lookupDefault data "alpha_matting" (JVal.bool true))) 240 10 = Except.ok out)
    (henc : env.imgEncode out "PNG" = Except.ok bts) :
    remove_background env data =
      (HttpResponse.json 200 [
        ("success", JVal.bool true),
        ("dataUrl", JVal.str ("data:image/png;base64," ++ base64Encode bts)),
        ("originalSize", JVal.arr [JVal.num ((modeNormalize env img0).width : ℚ),
          JVal.num ((modeNormalize env img0).height : ℚ)]),
        ("processedSize",
          JVal.arr [JVal.num ((resize_if_needed env (modeNormalize env img0) env.MAX_IMAGE_SIZE).width : ℚ),
            JVal.num ((resize_if_needed env (modeNormalize env img0) env.MAX_IMAGE_SIZE).height : ℚ)]),
        ("processingTime", JVal.num (pyRound2 env.elapsedSecs))], []) := by
  simp only [remove_background, hne, Bool.false_eq_true, if_false, hv, hdec, Except.bind,
    handle_image, PILImage.size, hrm, hfmt, image_to_base64, henc, runExc]
  rfl

/-- `stripDataUrl` can only raise a `ValueError`, never a
`RequestException`. -/
theorem stripDataUrl_not_reqExc (s : String) (m : String) :
    stripDataUrl s ≠ Except.error (PyErr.reqExc m) := by
  rw [stripDataUrl]
  split
  · split <;> simp
  · simp

/-- Decoding inline data can only raise non-`RequestException` errors
(`ValueError`, `binascii.Error`, PIL errors, `AttributeError`). -/
theorem decode_base64_image_not_reqExc (env : Env) (v : JVal) (m : String) :
    decode_base64_image env v ≠ Except.error (PyErr.reqExc m) := by
  intro h
  cases v with
  | str s =>
    simp only [decode_base64_image] at h
    cases hs : stripDataUrl s with
    | error e =>
      rw [hs] at h
      simp only [Except.bind, Except.error.injEq] at h
      exact stripDataUrl_not_reqExc s m (by rw [hs, h])
    | ok enc =>
      rw [hs] at h
      simp only [Except.bind] at h
      cases hb : env.b64decode enc with
      | error m2 => simp [hb] at h
      | ok bs =>
        cases ho : env.imageOpen bs with
        | error m3 => simp [hb, ho] at h
        | ok img => simp [hb, ho] at h
  | null => simp [decode_base64_image] at h
  | bool b => simp [decode_base64_image] at h
  | num q => simp [decode_base64_image] at h
  | arr xs => simp [decode_base64_image] at h
  | obj fs => simp [decode_base64_image] at h

/-- Everything after an image is in hand can only raise
non-`RequestException` errors. -/
theorem handle_image_not_reqExc (env : Env) (data : List (String × JVal))
    (img : PILImage) (m : String) :
    handle_image env data img ≠ Except.error (PyErr.reqExc m) := by
  intro h
  cases ho : env.removeBg (resize_if_needed env (modeNormalize env img) env.MAX_IMAGE_SIZE)
      (pyTruthy (lookupDefault data "alpha_matting" (JVal.bool true))) 240 10 with
  | error m2 => simp [handle_image, ho] at h
  | ok out =>
    cases he : env.imgEncode out "PNG" with
    | error m3 =>
      simp only [handle_image, ho, image_to_base64, he] at h
      split at h <;> simp at h
    | ok bts =>
      simp only [handle_image, ho, image_to_base64, he] at h
      split at h <;> simp at h

/-- When the post-decode stage returns a response normally, its status
is 200 (both the `send_file` and the `jsonify` success branches). -/
theorem handle_image_ok_status (env : Env) (data : List (String × JVal))
    (img : PILImage) (r : HttpResponse) (h : handle_image env data img = Except.ok r) :
    r.status = 200 := by
  cases ho : env.removeBg (resize_if_needed env (modeNormalize env img) env.MAX_IMAGE_SIZE)
      (pyTruthy (lookupDefault data "alpha_matting" (JVal.bool true))) 240 10 with
  | error m2 => simp [handle_image, ho] at h
  | ok out =>
    cases he : env.imgEncode out "PNG" with
    | error m3 =>
      simp only [handle_image, ho, image_to_base64, he] at h
      split at h <;> simp at h
    | ok bts =>
      simp only [handle_image, ho, image_to_base64, he] at h
      split at h <;> (simp only [Except.ok.injEq] at h; rw [← h]; rfl)

/-- The post-decode stage reads the request body only through
`data.get('alpha_matting', ...)` and `data.get('return_format', ...)`. -/
theorem handle_image_congr (env : Env) (d1 d2 : List (String × JVal)) (img : PILImage)
    (hA : lookupDefault d1 "alpha_matting" (JVal.bool true)
        = lookupDefault d2 "alpha_matting" (JVal.bool true))
    (hF : lookupDefault d1 "return_format" (JVal.str "base64")
        = lookupDefault d2 "return_format" (JVal.str "base64")) :
    handle_image env d1 img = handle_image env d2 img := by
  simp only [handle_image, hA, hF]

/-- Lookup skips a head entry under a different key. -/
theorem lookupKey_cons_ne (p : String × JVal) (rest : List (String × JVal)) (k : String)
    (h : (p.1 == k) = false) :
    lookupKey (p :: rest) k = lookupKey rest k := by
  simp [lookupKey, List.find?, h]

/-- Dropping entries under a different key does not change a lookup. -/
theorem lookupKey_filter_ne (data : List (String × JVal)) (k bad : String) (hk : k ≠ bad) :
    lookupKey (data.filter (fun p => !(p.1 == bad))) k = lookupKey data k := by
  induction data with
  | nil => rfl
  | cons p rest ih =>
    rw [List.filter_cons]
    by_cases hp : p.1 = bad
    · have hcond : (!(p.1 == bad)) = false := by simp [hp]
      rw [hcond]
      simp only [Bool.false_eq_true, if_false]
      rw [ih]
      have hpk : (p.1 == k) = false := by
        rw [hp]
        exact beq_eq_false_iff_ne.mpr (Ne.symm hk)
      rw [lookupKey_cons_ne p rest k hpk]
    · have hcond : (!(p.1 == bad)) = true := by simp [hp]
      rw [hcond]
      simp only [if_true]
      by_cases hpk : p.1 = k
      · have he : (p.1 == k) = true := by simp [hpk]
        simp [lookupKey, List.find?, he]
      · have hne : (p.1 == k) = false := by simp [hpk]
        rw [lookupKey_cons_ne p _ k hne, lookupKey_cons_ne p rest k hne, ih]


/-- A successful lookup means the object is non-empty. -/
theorem lookupKey_nonempty (data : List (String × JVal)) (k : String) (v : JVal)
    (h : lookupKey data k = some v) : data.isEmpty = false := by
  cases data with
  | nil => simp [lookupKey, List.find?] at h
  | cons p rest => rfl

/-! ### Claim C1 -/

/-- C1 counterexample: the claim includes the empty object, but for the
empty body the handler takes the `if not data` branch (line 111) and
answers 400 with the body "No JSON data provided", not the claimed
"No image provided. Use imageData or imageUrl". -/
theorem C1_counterexample :
    (remove_background envDefault []).1
        = HttpResponse.json 400 [("error", JVal.str "No JSON data provided")] ∧
    "No JSON data provided" ≠ "No image provided. Use imageData or imageUrl" :=
  ⟨rfl, by decide⟩

/-- C1 (amended): a POST whose JSON body is a NON-empty object containing
neither 'imageData' nor 'imageUrl' gets 400 with body
error = "No image provided. Use imageData or imageUrl"; the empty object
gets 400 with body error = "No JSON data provided". -/
theorem C1_missing_input (env : Env) (data : List (String × JVal))
    (h1 : lookupKey data "imageData" = none) (h2 : lookupKey data "imageUrl" = none) :
    (data.isEmpty = false →
      remove_background env data
        = (HttpResponse.json 400
            [("error", JVal.str "No image provided. Use imageData or imageUrl")], [])) ∧
    remove_background env []
      = (HttpResponse.json 400 [("error", JVal.str "No JSON data provided")], []) := by
  constructor
  · intro hne
    simp only [remove_background, hne, Bool.false_eq_true, if_false, h1, h2]
  · rfl

/-- C1 witness: evaluation at the object with the single key "foo" and
at the empty object. -/
theorem C1_missing_input_witness :
    remove_background envDefault [("foo", JVal.null)]
      = (HttpResponse.json 400
          [("error", JVal.str "No image provided. Use imageData or imageUrl")], []) ∧
    remove_background envDefault []
      = (HttpResponse.json 400 [("error", JVal.str "No JSON data provided")], []) :=
  ⟨(C1_missing_input envDefault [("foo", JVal.null)] rfl rfl).1 rfl,
   (C1_missing_input envDefault [("foo", JVal.null)] rfl rfl).2⟩

/-! ### Claim C3 -/

/-- C3 counterexample: for a 4096×3 image and threshold 2048 the code
computes the new smaller dimension as int((3 / 4096) * 2048) = int(1.5)
= 1, whereas the claimed round(2048 × (3 / 4096)) = round(1.5) = 2. -/
theorem C3_counterexample :
    ((resize_if_needed envDefault { width := 4096, height := 3, mode := "RGB", data := [] }
        2048).height : ℤ)
      ≠ round ((2048 : ℚ) * ((3 : ℚ) / (4096 : ℚ))) := by
  norm_num [resize_if_needed, pilResize, pyInt, round_eq]

/-- C3 (amended): when the larger dimension strictly exceeds the
threshold, the new larger dimension is the threshold and the new smaller
dimension is the Python int() truncation of threshold × (smaller /
larger) — truncation toward zero, not rounding to the nearest integer. -/
theorem C3_resize_truncates (env : Env) (img : PILImage) (m : Nat)
    (h : m < max img.width img.height) :
    max (resize_if_needed env img m).width (resize_if_needed env img m).height = m ∧
    ((min (resize_if_needed env img m).width (resize_if_needed env img m).height : ℕ) : ℤ)
      = pyInt ((m : ℚ) * (((min img.width img.height : ℕ) : ℚ)
          / ((max img.width img.height : ℕ) : ℚ))) := by
  obtain ⟨h1, h2, -⟩ := resize_dims_of_big env img m h
  refine ⟨h1, ?_⟩
  rw [h2]
  congr 1
  ring

/-- C3 witness: evaluation at the 4096×3 image with threshold 2048. -/
theorem C3_resize_truncates_witness :
    max (resize_if_needed envDefault { width := 4096, height := 3, mode := "RGB", data := [] } 2048).width
      (resize_if_needed envDefault { width := 4096, height := 3, mode := "RGB", data := [] } 2048).height
      = 2048 ∧
    ((min (resize_if_needed envDefault { width := 4096, height := 3, mode := "RGB", data := [] } 2048).width
        (resize_if_needed envDefault { width := 4096, height := 3, mode := "RGB", data := [] } 2048).height : ℕ) : ℤ)
      = pyInt (((2048 : ℕ) : ℚ) * (((min 4096 3 : ℕ) : ℚ) / ((max 4096 3 : ℕ) : ℚ))) := by
  exact C3_resize_truncates envDefault _ 2048 (by decide)

/-! ### Claim C4 -/

/-- C4: for a successfully processed inline image whose larger dimension
exceeds the configured cap, the response's processedSize has its maximum
equal to the cap and the smaller side within one pixel of the exact
proportional value. -/
theorem C4_cap_and_aspect (env : Env) (data : List (String × JVal))
    (v : JVal) (img0 out : PILImage) (bts : List Nat)
    (hne : data.isEmpty = false)
    (hv : lookupKey data "imageData" = some v)
    (hdec : decode_base64_image env v = Except.ok img0)
    (hfmt : pyEqStr (lookupDefault data "return_format" (JVal.str "base64")) "binary" = false)
    (hrm : env.removeBg (resize_if_needed env (modeNormalize env img0) env.MAX_IMAGE_SIZE)
        (pyTruthy (lookupDefault data "alpha_matting" (JVal.bool true))) 240 10 = Except.ok out)
    (henc : env.imgEncode out "PNG" = Except.ok bts)
    (hbig : env.MAX_IMAGE_SIZE < max img0.width img0.height) :
    ∃ x y : Nat,
      lookupKey (remove_background env data).1.jsonBody "processedSize"
        = some (JVal.arr [JVal.num (x : ℚ), JVal.num (y : ℚ)]) ∧
      max x y = env.MAX_IMAGE_SIZE ∧
      |((min x y : ℕ) : ℚ) - (((min img0.width img0.height : ℕ) : ℚ)
          / ((max img0.width img0.height : ℕ) : ℚ)) * ((env.MAX_IMAGE_SIZE : ℕ) : ℚ)| ≤ 1 := by
  have hW := modeNormalize_width env img0
  have hH := modeNormalize_height env img0
  have hbig' : env.MAX_IMAGE_SIZE
      < max (modeNormalize env img0).width (modeNormalize env img0).height := by
    rw [hW, hH]; exact hbig
  obtain ⟨h1, h2, h3⟩ := resize_dims_of_big env (modeNormalize env img0) env.MAX_IMAGE_SIZE hbig'
  rw [hW, hH] at h3
  refine ⟨(resize_if_needed env (modeNormalize env img0) env.MAX_IMAGE_SIZE).width,
          (resize_if_needed env (modeNormalize env img0) env.MAX_IMAGE_SIZE).height, ?_, h1, h3⟩
  rw [remove_background_base64_shape env data v img0 out bts hne hv hdec hfmt hrm henc]
  simp [HttpResponse.jsonBody, lookupKey, List.find?]

/-- An oversized 4096×100 RGB raster. -/
def imgBig : PILImage := { width := 4096, height := 100, mode := "RGB", data := [] }

/-- An environment whose image decoder yields `imgBig`. -/
def envBig : Env :=
  { envDefault with imageOpen := fun _ => Except.ok imgBig }

/-- C4 witness: evaluation on a 4096×100 decoded image with cap 2048. -/
theorem C4_cap_and_aspect_witness :
    ∃ x y : Nat,
      lookupKey (remove_background envBig [("imageData", JVal.str "AAAA")]).1.jsonBody
          "processedSize"
        = some (JVal.arr [JVal.num (x : ℚ), JVal.num (y : ℚ)]) ∧
      max x y = envBig.MAX_IMAGE_SIZE ∧
      |((min x y : ℕ) : ℚ) - (((min 4096 100 : ℕ) : ℚ)
          / ((max 4096 100 : ℕ) : ℚ)) * ((envBig.MAX_IMAGE_SIZE : ℕ) : ℚ)| ≤ 1 := by
  exact C4_cap_and_aspect envBig [("imageData", JVal.str "AAAA")] (JVal.str "AAAA")
    imgBig
    (resize_if_needed envBig (modeNormalize envBig imgBig) envBig.MAX_IMAGE_SIZE)
    [] rfl rfl rfl rfl rfl rfl (by decide)

/-! ### Claim C5 -/

/-- C5: when both decoded dimensions are within the threshold the size
normalizer is the identity, and the success response reports
processedSize equal to originalSize. -/
theorem C5_identity_under_cap (env : Env) (data : List (String × JVal))
    (v : JVal) (img0 out : PILImage) (bts : List Nat)
    (hne : data.isEmpty = false)
    (hv : lookupKey data "imageData" = some v)
    (hdec : decode_base64_image env v = Except.ok img0)
    (hfmt : pyEqStr (lookupDefault data "return_format" (JVal.str "base64")) "binary" = false)
    (hrm : env.removeBg (resize_if_needed env (modeNormalize env img0) env.MAX_IMAGE_SIZE)
        (pyTruthy (lookupDefault data "alpha_matting" (JVal.bool true))) 240 10 = Except.ok out)
    (henc : env.imgEncode out "PNG" = Except.ok bts)
    (hw : img0.width ≤ env.MAX_IMAGE_SIZE) (hh : img0.height ≤ env.MAX_IMAGE_SIZE) :
    resize_if_needed env (modeNormalize env img0) env.MAX_IMAGE_SIZE = modeNormalize env img0 ∧
    lookupKey (remove_background env data).1.jsonBody "processedSize"
      = lookupKey (remove_background env data).1.jsonBody "originalSize" := by
  have hid : resize_if_needed env (modeNormalize env img0) env.MAX_IMAGE_SIZE
      = modeNormalize env img0 :=
    resize_if_needed_small env _ _
      (by rw [modeNormalize_width]; exact hw)
      (by rw [modeNormalize_height]; exact hh)
  refine ⟨hid, ?_⟩
  rw [remove_background_base64_shape env data v img0 out bts hne hv hdec hfmt hrm henc, hid]
  simp [HttpResponse.jsonBody, lookupKey, List.find?]

/-- C5 witness: evaluation on a 1×1 decoded image with cap 2048. -/
theorem C5_identity_under_cap_witness :
    resize_if_needed envDefault
        (modeNormalize envDefault { width := 1, height := 1, mode := "RGB", data := [] })
        envDefault.MAX_IMAGE_SIZE
      = modeNormalize envDefault { width := 1, height := 1, mode := "RGB", data := [] } ∧
    lookupKey (remove_background envDefault [("imageData", JVal.str "AA==")]).1.jsonBody
        "processedSize"
      = lookupKey (remove_background envDefault [("imageData", JVal.str "AA==")]).1.jsonBody
        "originalSize" := by
  exact C5_identity_under_cap envDefault [("imageData", JVal.str "AA==")] (JVal.str "AA==")
    { width := 1, height := 1, mode := "RGB", data := [] }
    (resize_if_needed envDefault
      (modeNormalize envDefault { width := 1, height := 1, mode := "RGB", data := [] })
      envDefault.MAX_IMAGE_SIZE)
    [] rfl rfl rfl rfl rfl rfl (by decide) (by decide)

/-! ### Claim C7 -/

/-- C7: after the mode check every image is in RGB or RGBA mode; an
image in any other mode is converted via convert('RGBA'); and the mode
is unchanged by the size normalizer, so the removal invoker also only
sees RGB or RGBA inputs. -/
theorem C7_mode_invariant (env : Env) (img : PILImage) (m : Nat) :
    ((modeNormalize env img).mode = "RGB" ∨ (modeNormalize env img).mode = "RGBA") ∧
    ((resize_if_needed env (modeNormalize env img) m).mode = "RGB"
      ∨ (resize_if_needed env (modeNormalize env img) m).mode = "RGBA") ∧
    (img.mode ≠ "RGB" → img.mode ≠ "RGBA" →
      modeNormalize env img = pilConvertRGBA env img
        ∧ (pilConvertRGBA env img).mode = "RGBA") := by
  have h1 : (modeNormalize env img).mode = "RGB" ∨ (modeNormalize env img).mode = "RGBA" := by
    rw [modeNormalize]
    split
    · assumption
    · right; rfl
  refine ⟨h1, ?_, ?_⟩
  · rw [resize_if_needed_mode]; exact h1
  · intro hR hA
    have hnc : ¬(img.mode = "RGB" ∨ img.mode = "RGBA") := by
      intro hc
      rcases hc with hc | hc
      · exact hR hc
      · exact hA hc
    exact ⟨by rw [modeNormalize, if_neg hnc], rfl⟩

/-- C7 witness: evaluation on a grayscale ("L"-mode) image. -/
theorem C7_mode_invariant_witness :
    ((modeNormalize envDefault { width := 2, height := 2, mode := "L", data := [] }).mode = "RGB"
      ∨ (modeNormalize envDefault { width := 2, height := 2, mode := "L", data := [] }).mode
          = "RGBA") ∧
    modeNormalize envDefault { width := 2, height := 2, mode := "L", data := [] }
      = pilConvertRGBA envDefault { width := 2, height := 2, mode := "L", data := [] } :=
  ⟨(C7_mode_invariant envDefault { width := 2, height := 2, mode := "L", data := [] } 2048).1,
   ((C7_mode_invariant envDefault { width := 2, height := 2, mode := "L", data := [] } 2048).2.2
      (by decide) (by decide)).1⟩

/-! ### Claim C2 -/

/-- An environment whose HTTP client returns a 200 text page that the
image parser rejects. -/
def envTextPage : Env :=
  { envDefault with
      httpGet := fun _ => Except.ok { status := 200, content := [104, 105] },
      imageOpen := fun _ => Except.error "cannot identify image file" }

/-- C2 counterexample: a 2xx fetch whose body is not an image is NOT
answered with 400: the PIL parse error is not a `RequestException`, so
it falls through to the catch-all at line 169 and yields a 500. -/
theorem C2_counterexample :
    (remove_background envTextPage [("imageUrl", JVal.str "http://example.com/page.txt")]).1.status
        = 500 ∧
    (remove_background envTextPage [("imageUrl", JVal.str "http://example.com/page.txt")]).1.status
        ≠ 400 :=
  ⟨rfl, by decide⟩

/-- C2 (amended): a fetch that completes with a 2xx status but a body
that is not parseable as an image is answered 500 with the parse error
message as the 'error' field; only network failures and non-2xx statuses
produce the 400 fetch error. -/
theorem C2_nonimage_body_500 (env : Env) (data : List (String × JVal))
    (v : JVal) (resp : HttpResp) (m : String)
    (hne : data.isEmpty = false)
    (h1 : lookupKey data "imageData" = none)
    (h2 : lookupKey data "imageUrl" = some v)
    (hget : env.httpGet v = Except.ok resp)
    (h2xx : 200 ≤ resp.status ∧ resp.status < 300)
    (hopen : env.imageOpen resp.content = Except.error m) :
    remove_background env data = (HttpResponse.json 500 [("error", JVal.str m)], [v]) := by
  have hnot : ¬(400 ≤ resp.status ∧ resp.status < 600) := by omega
  simp only [remove_background, hne, Bool.false_eq_true, if_false, h1, h2,
    fetch_image_from_url, hget, hnot, hopen, Except.bind, runExc]

/-- C2 witness: evaluation of the text-page environment. -/
theorem C2_nonimage_body_500_witness :
    remove_background envTextPage [("imageUrl", JVal.str "http://example.com/page.txt")]
      = (HttpResponse.json 500 [("error", JVal.str "cannot identify image file")],
         [JVal.str "http://example.com/page.txt"]) := by
  exact C2_nonimage_body_500 envTextPage _ (JVal.str "http://example.com/page.txt")
    { status := 200, content := [104, 105] } "cannot identify image file"
    rfl rfl rfl rfl (by decide) rfl

/-! ### Claim C6 -/

/-- C6: an 'imageData' value that is not valid base64, or whose decoded
bytes are not a parseable image, is answered with the generic 500
processing error (the catch-all at line 169), not a 400. -/
theorem C6_decode_error_500 (env : Env) (data : List (String × JVal))
    (s enc : String) (bs : List Nat) (m : String)
    (hne : data.isEmpty = false)
    (hv : lookupKey data "imageData" = some (JVal.str s))
    (hstrip : stripDataUrl s = Except.ok enc)
    (hbad : env.b64decode enc = Except.error m
      ∨ (env.b64decode enc = Except.ok bs ∧ env.imageOpen bs = Except.error m)) :
    (remove_background env data).1 = HttpResponse.json 500 [("error", JVal.str m)] ∧
    (remove_background env data).1.status ≠ 400 := by
  have hres : (remove_background env data).1
      = HttpResponse.json 500 [("error", JVal.str m)] := by
    rcases hbad with hb | ⟨hb, ho⟩
    · simp only [remove_background, hne, Bool.false_eq_true, if_false, hv,
        decode_base64_image, hstrip, Except.bind, hb, runExc]
    · simp only [remove_background, hne, Bool.false_eq_true, if_false, hv,
        decode_base64_image, hstrip, Except.bind, hb, ho, runExc]
  refine ⟨hres, ?_⟩
  rw [hres]
  exact (by decide : (500 : Nat) ≠ 400)

/-- An environment whose base64 decoder rejects its input. -/
def envBadB64 : Env :=
  { envDefault with b64decode := fun _ => Except.error "Invalid base64-encoded string" }

/-- C6 witness: evaluation with a rejected base64 payload. -/
theorem C6_decode_error_500_witness :
    (remove_background envBadB64 [("imageData", JVal.str "%%%")]).1
        = HttpResponse.json 500 [("error", JVal.str "Invalid base64-encoded string")] ∧
    (remove_background envBadB64 [("imageData", JVal.str "%%%")]).1.status ≠ 400 := by
  exact C6_decode_error_500 envBadB64 _ "%%%" "%%%" [] "Invalid base64-encoded string"
    rfl rfl rfl (Or.inl rfl)

/-! ### Claim C8 -/

/-- C8: a successful request in the default inline ('base64') output
form is answered with exactly the five-field JSON envelope of lines
159-164: success = true, a dataUrl equal to "data:image/png;base64,"
followed by the base64 encoding of the PNG bytes, originalSize
(pre-normalization dimensions), processedSize (post-normalization
dimensions), and the elapsed seconds rounded to two decimals. -/
theorem C8_base64_envelope (env : Env) (data : List (String × JVal))
    (v : JVal) (img0 out : PILImage) (bts : List Nat)
    (hne : data.isEmpty = false)
    (hv : lookupKey data "imageData" = some v)
    (hdec : decode_base64_image env v = Except.ok img0)
    (hfmt : lookupDefault data "return_format" (JVal.str "base64") = JVal.str "base64")
    (hrm : env.removeBg (resize_if_needed env (modeNormalize env img0) env.MAX_IMAGE_SIZE)
        (pyTruthy (lookupDefault data "alpha_matting" (JVal.bool true))) 240 10 = Except.ok out)
    (henc : env.imgEncode out "PNG" = Except.ok bts) :
    remove_background env data =
      (HttpResponse.json 200 [
        ("success", JVal.bool true),
        ("dataUrl", JVal.str ("data:image/png;base64," ++ base64Encode bts)),
        ("originalSize", JVal.arr [JVal.num ((modeNormalize env img0).width : ℚ),
          JVal.num ((modeNormalize env img0).height : ℚ)]),
        ("processedSize",
          JVal.arr [JVal.num ((resize_if_needed env (modeNormalize env img0) env.MAX_IMAGE_SIZE).width : ℚ),
            JVal.num ((resize_if_needed env (modeNormalize env img0) env.MAX_IMAGE_SIZE).height : ℚ)]),
        ("processingTime", JVal.num (pyRound2 env.elapsedSecs))], []) := by
  have hf : pyEqStr (lookupDefault data "return_format" (JVal.str "base64")) "binary" = false := by
    rw [hfmt]
    decide
  exact remove_background_base64_shape env data v img0 out bts hne hv hdec hf hrm henc

/-- C8 witness: evaluation on a 1×1 decoded image with no options set. -/
theorem C8_base64_envelope_witness :
    remove_background envDefault [("imageData", JVal.str "AA==")] =
      (HttpResponse.json 200 [
        ("success", JVal.bool true),
        ("dataUrl", JVal.str ("data:image/png;base64," ++ base64Encode [])),
        ("originalSize",
          JVal.arr [JVal.num ((modeNormalize envDefault { width := 1, height := 1, mode := "RGB", data := [] }).width : ℚ),
            JVal.num ((modeNormalize envDefault { width := 1, height := 1, mode := "RGB", data := [] }).height : ℚ)]),
        ("processedSize",
          JVal.arr [JVal.num ((resize_if_needed envDefault (modeNormalize envDefault { width := 1, height := 1, mode := "RGB", data := [] }) envDefault.MAX_IMAGE_SIZE).width : ℚ),
            JVal.num ((resize_if_needed envDefault (modeNormalize envDefault { width := 1, height := 1, mode := "RGB", data := [] }) envDefault.MAX_IMAGE_SIZE).height : ℚ)]),
        ("processingTime", JVal.num (pyRound2 envDefault.elapsedSecs))], []) := by
  exact C8_base64_envelope envDefault [("imageData", JVal.str "AA==")] (JVal.str "AA==")
    { width := 1, height := 1, mode := "RGB", data := [] }
    (resize_if_needed envDefault
      (modeNormalize envDefault { width := 1, height := 1, mode := "RGB", data := [] })
      envDefault.MAX_IMAGE_SIZE)
    [] rfl rfl rfl rfl rfl rfl

/-! ### Claim C10 -/

/-- C10: a successful request with any return_format string other than
"binary" (including unrecognized values such as "jpeg") takes the base64
JSON-envelope path; an unrecognized output form is never rejected. -/
theorem C10_unrecognized_format_base64 (env : Env) (data : List (String × JVal))
    (v : JVal) (img0 out : PILImage) (bts : List Nat) (fmt : String)
    (hne : data.isEmpty = false)
    (hv : lookupKey data "imageData" = some v)
    (hdec : decode_base64_image env v = Except.ok img0)
    (hfmt : lookupKey data "return_format" = some (JVal.str fmt))
    (hbin : fmt ≠ "binary")
    (hrm : env.removeBg (resize_if_needed env (modeNormalize env img0) env.MAX_IMAGE_SIZE)
        (pyTruthy (lookupDefault data "alpha_matting" (JVal.bool true))) 240 10 = Except.ok out)
    (henc : env.imgEncode out "PNG" = Except.ok bts) :
    remove_background env data =
      (HttpResponse.json 200 [
        ("success", JVal.bool true),
        ("dataUrl", JVal.str ("data:image/png;base64," ++ base64Encode bts)),
        ("originalSize", JVal.arr [JVal.num ((modeNormalize env img0).width : ℚ),
          JVal.num ((modeNormalize env img0).height : ℚ)]),
        ("processedSize",
          JVal.arr [JVal.num ((resize_if_needed env (modeNormalize env img0) env.MAX_IMAGE_SIZE).width : ℚ),
            JVal.num ((resize_if_needed env (modeNormalize env img0) env.MAX_IMAGE_SIZE).height : ℚ)]),
        ("processingTime", JVal.num (pyRound2 env.elapsedSecs))], []) := by
  have hf : pyEqStr (lookupDefault data "return_format" (JVal.str "base64")) "binary" = false := by
    rw [lookupDefault, hfmt]
    simp only [Option.getD_some, pyEqStr
      ]
    exact beq_eq_false_iff_ne.mpr hbin
  exact remove_background_base64_shape env data v img0 out bts hne hv hdec hf hrm henc

/-- C10 witness: evaluation with return_format = "jpeg". -/
theorem C10_unrecognized_format_base64_witness :
    remove_background envDefault
        [("imageData", JVal.str "AA=="), ("return_format", JVal.str "jpeg")] =
      (HttpResponse.json 200 [
        ("success", JVal.bool true),
        ("dataUrl", JVal.str ("data:image/png;base64," ++ base64Encode [])),
        ("originalSize",
          JVal.arr [JVal.num ((modeNormalize envDefault { width := 1, height := 1, mode := "RGB", data := [] }).width : ℚ),
            JVal.num ((modeNormalize envDefault { width := 1, height := 1, mode := "RGB", data := [] }).height : ℚ)]),
        ("processedSize",
          JVal.arr [JVal.num ((resize_if_needed envDefault (modeNormalize envDefault { width := 1, height := 1, mode := "RGB", data := [] }) envDefault.MAX_IMAGE_SIZE).width : ℚ),
            JVal.num ((resize_if_needed envDefault (modeNormalize envDefault { width := 1, height := 1, mode := "RGB", data := [] }) envDefault.MAX_IMAGE_SIZE).height : ℚ)]),
        ("processingTime", JVal.num (pyRound2 envDefault.elapsedSecs))], []) := by
  exact C10_unrecognized_format_base64 envDefault
    [("imageData", JVal.str "AA=="), ("return_format", JVal.str "jpeg")] (JVal.str "AA==")
    { width := 1, height := 1, mode := "RGB", data := [] }
    (resize_if_needed envDefault
      (modeNormalize envDefault { width := 1, height := 1, mode := "RGB", data := [] })
      envDefault.MAX_IMAGE_SIZE)
    [] "jpeg" rfl rfl rfl rfl (by decide) rfl rfl

/-! ### Claim C9 -/

/-- C9: when both 'imageData' and 'imageUrl' are present the request is
not rejected: no outbound fetch is attempted (the trace of
`requests.get` calls is empty), the response is the same as for the body
with every 'imageUrl' entry removed (so 'imageData' takes precedence),
and the status is never 400. -/
theorem C9_imageData_precedence (env : Env) (data : List (String × JVal))
    (h1 : (lookupKey data "imageData").isSome = true)
    (h2 : (lookupKey data "imageUrl").isSome = true) :
    (remove_background env data).2 = [] ∧
    remove_background env data
      = remove_background env (data.filter (fun p => !(p.1 == "imageUrl"))) ∧
    (remove_background env data).1.status ≠ 400 := by
  rcases Option.isSome_iff_exists.mp h1 with ⟨v, hv⟩
  have hne := lookupKey_nonempty data "imageData" v hv
  have hfil : lookupKey (data.filter (fun p => !(p.1 == "imageUrl"))) "imageData" = some v := by
    rw [lookupKey_filter_ne data "imageData" "imageUrl" (by decide)]
    exact hv
  have hnefil := lookupKey_nonempty _ "imageData" v hfil
  have hAeq : lookupDefault (data.filter (fun p => !(p.1 == "imageUrl")))
        "alpha_matting" (JVal.bool true)
      = lookupDefault data "alpha_matting" (JVal.bool true) := by
    rw [lookupDefault, lookupDefault,
      lookupKey_filter_ne data "alpha_matting" "imageUrl" (by decide)]
  have hFeq : lookupDefault (data.filter (fun p => !(p.1 == "imageUrl")))
        "return_format" (JVal.str "base64")
      = lookupDefault data "return_format" (JVal.str "base64") := by
    rw [lookupDefault, lookupDefault,
      lookupKey_filter_ne data "return_format" "imageUrl" (by decide)]
  have hL : remove_background env data
      = (runExc (Except.bind (decode_base64_image env v) (handle_image env data)), []) := by
    simp only [remove_background, hne, Bool.false_eq_true, if_false, hv]
  have hR : remove_background env (data.filter (fun p => !(p.1 == "imageUrl")))
      = (runExc (Except.bind (decode_base64_image env v)
          (handle_image env (data.filter (fun p => !(p.1 == "imageUrl"))))), []) := by
    simp only [remove_background, hnefil, Bool.false_eq_true, if_false, hfil]
  have hHI : handle_image env (data.filter (fun p => !(p.1 == "imageUrl")))
      = handle_image env data := by
    funext img
    exact handle_image_congr env _ data img hAeq hFeq
  refine ⟨?_, ?_, ?_⟩
  · rw [hL]
  · rw [hL, hR, hHI]
  · rw [hL]
    show (runExc (Except.bind (decode_base64_image env v) (handle_image env data))).status ≠ 400
    cases hd : decode_base64_image env v with
    | error e =>
      cases e with
      | reqExc m => exact absurd hd (decode_base64_image_not_reqExc env v m)
      | other m =>
        simp only [Except.bind, runExc]
        exact (by decide : (500 : Nat) ≠ 400)
    | ok img =>
      cases hh : handle_image env data img with
      | error e =>
        cases e with
        | reqExc m => exact absurd hh (handle_image_not_reqExc env data img m)
        | other m =>
          simp only [Except.bind, hh, runExc]
          exact (by decide : (500 : Nat) ≠ 400)
      | ok r =>
        have h200 := handle_image_ok_status env data img r hh
        simp only [Except.bind, hh, runExc]
        omega

/-- A request body carrying both image sources. -/
def dataBoth : List (String × JVal) :=
  [("imageData", JVal.str "AA=="), ("imageUrl", JVal.str "http://example.com/a.png")]

/-- C9 witness: evaluation with both 'imageData' and 'imageUrl' set. -/
theorem C9_imageData_precedence_witness :
    (remove_background envDefault dataBoth).2 = [] ∧
    remove_background envDefault dataBoth
      = remove_background envDefault (dataBoth.filter (fun p => !(p.1 == "imageUrl"))) ∧
    (remove_background envDefault dataBoth).1.status ≠ 400 :=
  C9_imageData_precedence envDefault dataBoth rfl rfl
